import Mathlib

/-!
Verification of the threshold classifier and forwarder endpoints of
src/app.py (a FastAPI gateway). Pure request-handler logic is shallowly
embedded: Python floats appearing only in order comparisons are modelled
as rationals, Python dicts as functions from string keys to optional
values, and a raised HTTPException as an explicit error result.
-/

/-- A classification result: the body returned by the /analyze endpoint,
with fields action and reason (src/app.py, analyze_price). -/
structure ClassificationResult where
  action : String
  reason : String
deriving DecidableEq

/-- A thresholds mapping: the Python dict passed in an AnalyzeRequest.
`t k = some v` means key k is present with value v; `t k = none` means the
key is absent. Numeric values are modelled as rationals. -/
abbrev Thresholds := String → Option ℚ

/-- The empty thresholds dict. -/
def noThresholds : Thresholds := fun _ => none

/-- Embedding of analyze_price (src/app.py lines 131-138). The Python
`data.thresholds.get(key, default)` is `(thresholds key).getD default`;
the reason strings are the Polish strings of the source. -/
def analyze_price (price : ℚ) (thresholds : Thresholds) : ClassificationResult :=
  if price < (thresholds "buy").getD 200 then
    { action := "buy", reason := "Cena ponizej progu zakupu" }
  else if price > (thresholds "sell").getD 600 then
    { action := "sell", reason := "Cena powyzej progu sprzedazy" }
  else
    { action := "wait", reason := "Cena neutralna" }

/-- Spec-side resolution of the buy threshold (spec section 4.1): the value
at key buy if present, else 200. -/
def buyThreshold (thresholds : Thresholds) : ℚ :=
  match thresholds "buy" with
  | some v => v
  | none => 200

/-- Spec-side resolution of the sell threshold (spec section 4.1): the value
at key sell if present, else 600. -/
def sellThreshold (thresholds : Thresholds) : ℚ :=
  match thresholds "sell" with
  | some v => v
  | none => 600

/-- Spec-side classifier, transcribed from the words of spec section 4.1
including its English reason strings, to be compared with the source
function analyze_price. -/
def classify_spec (price : ℚ) (thresholds : Thresholds) : ClassificationResult :=
  if price < buyThreshold thresholds then
    { action := "buy", reason := "price below buy threshold" }
  else if price > sellThreshold thresholds then
    { action := "sell", reason := "price above sell threshold" }
  else
    { action := "wait", reason := "price neutral" }

/-- Outcome of a request handler: a returned value, or a raised
HTTPException carrying a status code and a detail. -/
inductive HandlerResult (α : Type) (β : Type) where
  | ok (value : α)
  | httpError (status_code : Nat) (detail : β)
deriving DecidableEq

/-- A decoded token payload: a Python dict; `p k` models `payload.get(k)`.
Only the sub claim matters to the handler, and it is modelled as a string. -/
abbrev Payload := String → Option String

/-- Result of jwt.decode from the jose library, which is external to the
repository: an error models the library raising JWTError on a malformed
token or an invalid signature; ok carries the verified payload. -/
abbrev DecodeResult := Except Unit Payload

/-- Embedding of get_current_user (src/app.py lines 28-37), as a function of
the decode result. A missing sub claim raises HTTPException 401 from inside
the try block; that exception is not a JWTError, so it propagates past the
except clause. A JWTError from jwt.decode raises HTTPException 403. -/
def get_current_user (decoded : DecodeResult) : HandlerResult String String :=
  match decoded with
  | .ok payload =>
    match payload "sub" with
    | none => .httpError 401 "Nieprawidłowy token"
    | some user_id => .ok user_id
  | .error _ => .httpError 403 "Błąd autoryzacji"

/-- An HTTP response from the external Supabase service: its status code
and its body. The body type is abstract: for /register and /login it stands
for the parsed response.json(), for the store endpoints for response.text. -/
structure UpstreamResponse (β : Type) where
  status_code : Nat
  body : β
deriving DecidableEq

/-- The fixed JSON body with a single status field returned by /decision
and /upload on success. -/
structure StatusBody where
  status : String
deriving DecidableEq

/-- Embedding of the register handler (src/app.py lines 60-72) as a function
of the upstream response: any status other than 200 re-raises it with the
upstream body as detail, otherwise the upstream body is returned. -/
def register {β : Type} (response : UpstreamResponse β) : HandlerResult β β :=
  if response.status_code ≠ 200 then
    .httpError response.status_code response.body
  else
    .ok response.body

/-- Embedding of the login handler (src/app.py lines 74-86): same shape as
register. -/
def login {β : Type} (response : UpstreamResponse β) : HandlerResult β β :=
  if response.status_code ≠ 200 then
    .httpError response.status_code response.body
  else
    .ok response.body

/-- Embedding of add_decision (src/app.py lines 94-114) as a function of the
upstream response: any status other than 201 re-raises it with the upstream
body as detail; on 201 the fixed body with status decision saved is
returned and the upstream body is discarded. -/
def add_decision {β : Type} (response : UpstreamResponse β) : HandlerResult StatusBody β :=
  if response.status_code ≠ 201 then
    .httpError response.status_code response.body
  else
    .ok { status := "decision saved" }

/-- Embedding of get_user_decisions (src/app.py lines 116-127): any status
other than 200 re-raises it with the upstream body as detail. -/
def get_user_decisions {β : Type} (response : UpstreamResponse β) : HandlerResult β β :=
  if response.status_code ≠ 200 then
    .httpError response.status_code response.body
  else
    .ok response.body

/-- Embedding of upload_data (src/app.py lines 142-160): any status other
than 201 re-raises it with the upstream body as detail; on 201 the fixed
body with status upload saved is returned. -/
def upload_data {β : Type} (response : UpstreamResponse β) : HandlerResult StatusBody β :=
  if response.status_code ≠ 201 then
    .httpError response.status_code response.body
  else
    .ok { status := "upload saved" }

/-- Embedding of get_user_uploads (src/app.py lines 162-173): same shape as
get_user_decisions. -/
def get_user_uploads {β : Type} (response : UpstreamResponse β) : HandlerResult β β :=
  if response.status_code ≠ 200 then
    .httpError response.status_code response.body
  else
    .ok response.body

/-- The resolved buy threshold of the spec coincides with the dict lookup
with default performed by the source. -/
theorem buyThreshold_eq_getD (t : Thresholds) :
    buyThreshold t = (t "buy").getD 200 := by
  unfold buyThreshold
  cases t "buy" <;> rfl

/-- The resolved sell threshold of the spec coincides with the dict lookup
with default performed by the source. -/
theorem sellThreshold_eq_getD (t : Thresholds) :
    sellThreshold t = (t "sell").getD 600 := by
  unfold sellThreshold
  cases t "sell" <;> rfl

/-- A thresholds dict with the buy threshold above the sell threshold:
buy maps to 700 and sell to 600. -/
def invertedThresholds : Thresholds :=
  fun k => if k = "buy" then some 700 else if k = "sell" then some 600 else none

/-- Claim C1, counterexample: at price 50 with empty thresholds the source
returns a Polish reason string, not the exact English reason string of the
spec, so the source result differs from the spec transcription. -/
theorem c1_reason_string_counterexample :
    analyze_price 50 noThresholds ≠ classify_spec 50 noThresholds := by
  decide

/-- Claim C1 (amended): classify resolves the buy threshold to the value at
key buy if present else 200 and the sell threshold to the value at key sell
if present else 600, and returns action buy with reason Cena ponizej progu
zakupu when price is below the buy threshold, else action sell with reason
Cena powyzej progu sprzedazy when price is above the sell threshold, else
action wait with reason Cena neutralna — the reason strings are the Polish
strings of the source, not the English strings of the spec. -/
theorem c1_classifier_branches (price : ℚ) (t : Thresholds) :
    (price < buyThreshold t →
      analyze_price price t = { action := "buy", reason := "Cena ponizej progu zakupu" }) ∧
    (¬ price < buyThreshold t → price > sellThreshold t →
      analyze_price price t = { action := "sell", reason := "Cena powyzej progu sprzedazy" }) ∧
    (¬ price < buyThreshold t → ¬ price > sellThreshold t →
      analyze_price price t = { action := "wait", reason := "Cena neutralna" }) := by
  unfold analyze_price
  rw [← buyThreshold_eq_getD, ← sellThreshold_eq_getD]
  refine ⟨fun h => by rw [if_pos h],
    fun h1 h2 => by rw [if_neg h1, if_pos h2],
    fun h1 h2 => by rw [if_neg h1, if_neg h2]⟩

/-- Witness for the amended claim C1: the three branches at prices 50, 700
and 300 with empty thresholds. -/
theorem c1_classifier_branches_witness :
    analyze_price 50 noThresholds
      = { action := "buy", reason := "Cena ponizej progu zakupu" } ∧
    analyze_price 700 noThresholds
      = { action := "sell", reason := "Cena powyzej progu sprzedazy" } ∧
    analyze_price 300 noThresholds
      = { action := "wait", reason := "Cena neutralna" } :=
  ⟨(c1_classifier_branches 50 noThresholds).1 (by decide),
   (c1_classifier_branches 700 noThresholds).2.1 (by decide) (by decide),
   (c1_classifier_branches 300 noThresholds).2.2 (by decide) (by decide)⟩

/-- Claim C2, counterexample: with buy mapped to 700 and sell to 600, the
price 700 equals the resolved buy threshold yet the action is sell, not
wait — the claim fails for thresholds mappings with buy above sell. -/
theorem c2_boundary_counterexample :
    buyThreshold invertedThresholds = 700 ∧
    (analyze_price 700 invertedThresholds).action = "sell" := by
  decide

/-- Claim C2 (amended): for every thresholds mapping whose resolved buy
threshold is at most its resolved sell threshold, a price exactly equal to
either resolved threshold yields action wait; in particular with default
thresholds, prices 200 and 600 both yield wait. -/
theorem c2_strict_boundaries (t : Thresholds)
    (h : buyThreshold t ≤ sellThreshold t) :
    (analyze_price (buyThreshold t) t).action = "wait" ∧
    (analyze_price (sellThreshold t) t).action = "wait" := by
  unfold analyze_price
  rw [← buyThreshold_eq_getD, ← sellThreshold_eq_getD]
  constructor
  · rw [if_neg (lt_irrefl _), if_neg (not_lt.mpr h)]
  · rw [if_neg (not_lt.mpr h), if_neg (lt_irrefl _)]

/-- Witness for the amended claim C2: with the empty thresholds dict the
resolved thresholds are 200 and 600, and both boundary prices yield wait. -/
theorem c2_strict_boundaries_witness :
    (analyze_price 200 noThresholds).action = "wait" ∧
    (analyze_price 600 noThresholds).action = "wait" :=
  c2_strict_boundaries noThresholds (by decide)

/-- Claim C3: with the empty thresholds dict, every price below 200 yields
action buy and every price above 600 yields action sell. -/
theorem c3_default_buy_sell_regions (price : ℚ) :
    (price < 200 → (analyze_price price noThresholds).action = "buy") ∧
    (price > 600 → (analyze_price price noThresholds).action = "sell") := by
  unfold analyze_price
  simp only [noThresholds, Option.getD_none]
  constructor
  · intro h
    rw [if_pos h]
  · intro h
    rw [if_neg (by linarith), if_pos h]

/-- Witness for claim C3: price 50 yields buy and price 700 yields sell. -/
theorem c3_default_buy_sell_regions_witness :
    (analyze_price 50 noThresholds).action = "buy" ∧
    (analyze_price 700 noThresholds).action = "sell" :=
  ⟨(c3_default_buy_sell_regions 50).1 (by decide),
   (c3_default_buy_sell_regions 700).2 (by decide)⟩

/-- Claim C4: for every price strictly between the resolved buy and sell
thresholds, classify returns action wait (custom thresholds override the
defaults). -/
theorem c4_wait_between_thresholds (price : ℚ) (t : Thresholds)
    (h1 : buyThreshold t < price) (h2 : price < sellThreshold t) :
    (analyze_price price t).action = "wait" := by
  unfold analyze_price
  rw [← buyThreshold_eq_getD, ← sellThreshold_eq_getD]
  rw [if_neg (not_lt.mpr (le_of_lt h1)), if_neg (not_lt.mpr (le_of_lt h2))]

/-- Witness for claim C4: price 400 with buy 300 and sell 500 yields wait,
and price 150 with buy 100 (sell defaulting to 600) yields wait. -/
theorem c4_wait_between_thresholds_witness :
    (analyze_price 400
      (fun k => if k = "buy" then some 300 else if k = "sell" then some 500 else none)).action
      = "wait" ∧
    (analyze_price 150 (fun k => if k = "buy" then some 100 else none)).action = "wait" :=
  ⟨c4_wait_between_thresholds 400 _ (by decide) (by decide),
   c4_wait_between_thresholds 150 _ (by decide) (by decide)⟩

/-- Claim C5: the classifier is total — for every price and every
thresholds mapping, including ones whose buy threshold exceeds their sell
threshold, it returns one of exactly three results. -/
theorem c5_classifier_total (price : ℚ) (t : Thresholds) :
    analyze_price price t = { action := "buy", reason := "Cena ponizej progu zakupu" } ∨
    analyze_price price t = { action := "sell", reason := "Cena powyzej progu sprzedazy" } ∨
    analyze_price price t = { action := "wait", reason := "Cena neutralna" } := by
  unfold analyze_price
  split
  · exact Or.inl rfl
  · split
    · exact Or.inr (Or.inl rfl)
    · exact Or.inr (Or.inr rfl)

/-- Claim C6: the classifier is deterministic and referentially
transparent — identical price and thresholds inputs give identical results,
there being no hidden state in the embedding of analyze_price. -/
theorem c6_classifier_deterministic (p1 p2 : ℚ) (t1 t2 : Thresholds)
    (hp : p1 = p2) (ht : t1 = t2) :
    analyze_price p1 t1 = analyze_price p2 t2 := by
  rw [hp, ht]

/-- Witness for claim C6 at price 100 with empty thresholds. -/
theorem c6_classifier_deterministic_witness :
    analyze_price 100 noThresholds = analyze_price 100 noThresholds :=
  c6_classifier_deterministic 100 100 noThresholds noThresholds rfl rfl

/-- Claim C7: two-tier failure split of token verification — when jwt.decode
raises (malformed token or invalid signature) the request fails with status
403; when decoding succeeds but the payload has no sub claim it fails with
status 401; when decoding succeeds and a sub claim is present, its value is
returned as the caller identity. -/
theorem c7_token_two_tier (d : DecodeResult) :
    (∀ e : Unit, d = Except.error e →
      get_current_user d = .httpError 403 "Błąd autoryzacji") ∧
    (∀ p : Payload, d = Except.ok p → p "sub" = none →
      get_current_user d = .httpError 401 "Nieprawidłowy token") ∧
    (∀ (p : Payload) (u : String), d = Except.ok p → p "sub" = some u →
      get_current_user d = .ok u) := by
  refine ⟨?_, ?_, ?_⟩
  · rintro e rfl
    rfl
  · rintro p rfl hsub
    simp [get_current_user, hsub]
  · rintro p u rfl hsub
    simp [get_current_user, hsub]

/-- Witness for claim C7: a failed decode yields 403, a payload without a
sub claim yields 401, and a payload whose sub claim is alice yields the
identity alice. -/
theorem c7_token_two_tier_witness :
    get_current_user (Except.error ()) = .httpError 403 "Błąd autoryzacji" ∧
    get_current_user (Except.ok (fun _ => none)) = .httpError 401 "Nieprawidłowy token" ∧
    get_current_user (Except.ok (fun k => if k = "sub" then some "alice" else none))
      = .ok "alice" :=
  ⟨(c7_token_two_tier (Except.error ())).1 () rfl,
   (c7_token_two_tier (Except.ok (fun _ => none))).2.1 (fun _ => none) rfl rfl,
   (c7_token_two_tier (Except.ok (fun k => if k = "sub" then some "alice" else none))).2.2
     (fun k => if k = "sub" then some "alice" else none) "alice" rfl (by decide)⟩

/-- Claim C8: every endpoint that calls the external service propagates a
non-success upstream status verbatim — whenever the upstream status is not
a 2xx success status, the handler raises an error carrying exactly the
upstream status code and the upstream body as the detail. -/
theorem c8_upstream_error_propagation {β : Type} (r : UpstreamResponse β)
    (h : ¬ (200 ≤ r.status_code ∧ r.status_code ≤ 299)) :
    register r = .httpError r.status_code r.body ∧
    login r = .httpError r.status_code r.body ∧
    add_decision r = .httpError r.status_code r.body ∧
    get_user_decisions r = .httpError r.status_code r.body ∧
    upload_data r = .httpError r.status_code r.body ∧
    get_user_uploads r = .httpError r.status_code r.body := by
  have h200 : r.status_code ≠ 200 := by omega
  have h201 : r.status_code ≠ 201 := by omega
  refine ⟨?_, ?_, ?_, ?_, ?_, ?_⟩ <;>
    simp [register, login, add_decision, get_user_decisions, upload_data,
      get_user_uploads, h200, h201]

/-- Witness for claim C8: an upstream 500 with body boom is propagated by
all six forwarder handlers. -/
theorem c8_upstream_error_propagation_witness :
    register (⟨500, "boom"⟩ : UpstreamResponse String) = .httpError 500 "boom" ∧
    login (⟨500, "boom"⟩ : UpstreamResponse String) = .httpError 500 "boom" ∧
    add_decision (⟨500, "boom"⟩ : UpstreamResponse String) = .httpError 500 "boom" ∧
    get_user_decisions (⟨500, "boom"⟩ : UpstreamResponse String) = .httpError 500 "boom" ∧
    upload_data (⟨500, "boom"⟩ : UpstreamResponse String) = .httpError 500 "boom" ∧
    get_user_uploads (⟨500, "boom"⟩ : UpstreamResponse String) = .httpError 500 "boom" :=
  c8_upstream_error_propagation (⟨500, "boom"⟩ : UpstreamResponse String) (by decide)

/-- Claim C9: on upstream status exactly 201 the /decision handler returns
the fixed body with status decision saved and the /upload handler the fixed
body with status upload saved, discarding the upstream body; any upstream
status other than exactly 201 is treated as failure and propagated. -/
theorem c9_creation_endpoints {β : Type} (r : UpstreamResponse β) :
    (r.status_code = 201 →
      add_decision r = .ok { status := "decision saved" } ∧
      upload_data r = .ok { status := "upload saved" }) ∧
    (r.status_code ≠ 201 →
      add_decision r = .httpError r.status_code r.body ∧
      upload_data r = .httpError r.status_code r.body) := by
  constructor
  · intro h
    constructor <;> simp [add_decision, upload_data, h]
  · intro h
    constructor <;> simp [add_decision, upload_data, h]

/-- Witness for claim C9: a 201 with body created yields the fixed success
bodies with the upstream body discarded, while a 200 — a success status in
general HTTP terms but not exactly 201 — is treated as failure. -/
theorem c9_creation_endpoints_witness :
    add_decision (⟨201, "created"⟩ : UpstreamResponse String)
      = .ok { status := "decision saved" } ∧
    upload_data (⟨201, "created"⟩ : UpstreamResponse String)
      = .ok { status := "upload saved" } ∧
    add_decision (⟨200, "ok"⟩ : UpstreamResponse String) = .httpError 200 "ok" ∧
    upload_data (⟨200, "ok"⟩ : UpstreamResponse String) = .httpError 200 "ok" := by
  have h1 := (c9_creation_endpoints (⟨201, "created"⟩ : UpstreamResponse String)).1 rfl
  have h2 := (c9_creation_endpoints (⟨200, "ok"⟩ : UpstreamResponse String)).2 (by decide)
  exact ⟨h1.1, h1.2, h2.1, h2.2⟩

/-- Claim C10: the classifier consults only the buy and sell keys — two
thresholds mappings that agree on the presence and values of the buy and
sell keys give identical results for every price, whatever other keys they
hold. -/
theorem c10_only_buy_sell_keys (price : ℚ) (t1 t2 : Thresholds)
    (hb : t1 "buy" = t2 "buy") (hs : t1 "sell" = t2 "sell") :
    analyze_price price t1 = analyze_price price t2 := by
  unfold analyze_price
  rw [hb, hs]

/-- Witness for claim C10: a mapping with an extra irrelevant key gives the
same result at price 150 as the mapping without it. -/
theorem c10_only_buy_sell_keys_witness :
    analyze_price 150
      (fun k => if k = "buy" then some 100 else if k = "other" then some 999 else none)
      = analyze_price 150 (fun k => if k = "buy" then some 100 else none) :=
  c10_only_buy_sell_keys 150
    (fun k => if k = "buy" then some 100 else if k = "other" then some 999 else none)
    (fun k => if k = "buy" then some 100 else none) (by decide) (by decide)
